import Mathlib

/-!
Verification of the ZIP connector module (src/zip.py).

The module offers five operations over a named archive path: list, create,
extract, extractall and test.  Each returns a dictionary with a "status"
field ("ok" or "error") and a "message" field; list additionally returns the
entry records.  We embed the module as pure Lean functions:

* the filesystem is a value of type `FS`: finite lists of regular-file paths
  and directory paths, an oracle for the triples produced by the os.walk
  traversal, and metadata oracles (file size, deflate-compressed size,
  modification time);
* the state of the archive file named by `filename` is a `ZFile`: missing,
  existing-but-not-a-zip, or a parsed archive (a list of entries);
* `create` additionally returns the write it performs on the target file
  (`none` when the target is left untouched, `some a` when the target file
  now holds archive `a`);
* Python exception flow is embedded with `Except` / `Option` values and the
  surrounding try/except blocks as the matches that convert them to results.

The behaviour of the external collaborators that the module calls is
embedded from their documented semantics, assuming a POSIX host:
`str.strip`, `str.split`, `str.replace`, `os.path.join`, `os.path.normpath`,
and the arcname normalisation performed by `zipfile.ZipInfo.from_file`
(normpath, then strip leading separators — raising IndexError when the
name degenerates to the empty string — and a trailing "/" for directories).
-/

/-- Python whitespace test for str.strip (ASCII part). -/
def isPySpace (c : Char) : Bool :=
  c == ' ' || c == '\t' || c == '\n' || c == '\r' || c == '\x0b' || c == '\x0c'

/-- Embedding of the Python str.strip() used on filenames and source items. -/
def pyStrip (s : String) : String :=
  String.mk (((s.data.dropWhile isPySpace).reverse.dropWhile isPySpace).reverse)

/-- Split a character list at every occurrence of `sep`; mirrors the Python
str.split with a one-character separator (the module splits on ";" and
normpath splits on "/"). -/
def splitChar (sep : Char) : List Char → List (List Char)
  | [] => [[]]
  | c :: cs =>
    let r := splitChar sep cs
    if c == sep then [] :: r
    else
      match r with
      | [] => [[c]]
      | h :: t => (c :: h) :: t

/-- Embedding of source.split(";") from create. -/
def splitSemi (s : String) : List String :=
  (splitChar ';' s.data).map String.mk

/-- Does `pre` occur at the start of `s` (str.startswith)? -/
def strStarts (pre s : String) : Bool :=
  pre.data.isPrefixOf s.data

/-- Does `suf` occur at the end of `s` (str.endswith)? -/
def strEnds (suf s : String) : Bool :=
  suf.data.isSuffixOf s.data

/-- Remove, left to right and non-overlapping, every occurrence of `pat`
from the character list; fuelled so that it is structurally recursive.  Each
step consumes at least one character, so fuel equal to the length of the
list is enough. -/
def removeOccF (pat : List Char) : Nat → List Char → List Char
  | _, [] => []
  | 0, l => l
  | Nat.succ n, c :: cs =>
    if pat.isPrefixOf (c :: cs) then removeOccF pat n ((c :: cs).drop pat.length)
    else c :: removeOccF pat n cs

/-- Embedding of the Python str.replace(s, pat, "") used by create to strip
the root from a source path: removes every occurrence of `pat`, not only a
leading one.  With an empty pattern str.replace(s, "", "") returns s. -/
def pyRemove (s pat : String) : String :=
  if pat == "" then s else String.mk (removeOccF pat.data s.data.length s.data)

/-- Embedding of the POSIX os.path.join for two components, as used by
os.walk path assembly and by zipfile extraction targets. -/
def pyJoin (a b : String) : String :=
  if strStarts "/" b then b
  else if a == "" || strEnds "/" a then a ++ b
  else a ++ "/" ++ b

/-- Join path components with "/" (str.join over a "/" separator). -/
def joinSlash : List String → String
  | [] => ""
  | [x] => x
  | x :: xs => x ++ "/" ++ joinSlash xs

/-- Embedding of the POSIX os.path.normpath: collapse empty and "."
components, resolve ".." against preceding components, and keep the
initial slashes (two are preserved exactly when the path starts with
exactly two). -/
def posixNormpath (p : String) : String :=
  if p == "" then "."
  else
    let slashes : Nat :=
      if strStarts "//" p && !(strStarts "///" p) then 2
      else if strStarts "/" p then 1 else 0
    let comps := (splitChar '/' p.data).map String.mk
    let newComps := comps.foldl (fun acc comp =>
      if comp == "" || comp == "." then acc
      else if comp != ".." || (slashes == 0 && acc.isEmpty)
           || (!acc.isEmpty && acc.getLast? == some "..") then acc ++ [comp]
      else if !acc.isEmpty then acc.dropLast
      else acc) []
    let j := String.mk (List.replicate slashes '/') ++ joinSlash newComps
    if j == "" then "." else j

/-- Strip every leading "/" from a string, as the arcname loop of
zipfile.ZipInfo.from_file does one character at a time. -/
def stripLeadSlash (s : String) : String :=
  String.mk (s.data.dropWhile (fun c => c == '/'))

/-- The arcname stored by zipfile for a raw archive path (before the
trailing "/" that from_file adds for directories): normpath, then leading
separators stripped.  Total version, used to state theorems. -/
def arcNameFor (arcRaw : String) : String :=
  stripLeadSlash (posixNormpath arcRaw)

/-- The arcname computation of zipfile.ZipInfo.from_file with its failure:
when stripping the leading separators exhausts the string, the next
arcname[0] access raises IndexError("string index out of range"). -/
def arcNorm (arcRaw : String) : Except String String :=
  let t := arcNameFor arcRaw
  if t == "" then Except.error "string index out of range" else Except.ok t

/-- The strerror text of errno ENOENT on the POSIX host. -/
def enoentStrerror : String := "No such file or directory"

/-- str(e) for the BadZipFile raised when an existing file is not a zip. -/
def badZipMsg : String := "File is not a zip file"

/-- str(e) for the FileExistsError raised by exclusive-create open. -/
def fileExistsMsg (fn : String) : String :=
  "[Errno 17] File exists: " ++ "\x27" ++ fn ++ "\x27"

/-- str(e) for the KeyError that ZipFile.getinfo raises for an unknown
member name (repr adds the quotes). -/
def keyErrorMsg (member : String) : String :=
  "\"There is no item named \x27" ++ member ++ "\x27 in the archive\""

/-- Python truthiness of an optional string: None and "" are falsy. -/
def pyTruthy : Option String → Bool
  | none => false
  | some s => !(s == "")

/-- A zipfile date_time tuple (year, month, day, hour, minute, second). -/
abbrev DT6 := Nat × Nat × Nat × Nat × Nat × Nat

/-- One member of an archive, as zipfile records it: the stored name (with
a trailing "/" for directory entries), size metadata, the date_time tuple,
and whether the stored checksum and headers match the content (what
ZipFile.testzip checks). -/
structure Entry where
  filename : String
  isDir : Bool
  fileSize : Nat
  compressSize : Nat
  dateTime : DT6
  crcOk : Bool
deriving DecidableEq, Repr

/-- An archive is its list of entries in storage order. -/
abbrev Archive := List Entry

/-- The state of the file at the archive path: absent, present but not a
zip container, or a readable archive. -/
inductive ZFile where
  | missing : ZFile
  | invalid : ZFile
  | zip : Archive → ZFile
deriving DecidableEq, Repr

/-- The filesystem visible to create: regular files, directories, the
os.walk triples (dirpath, dirnames, filenames) for each walked root, and
metadata oracles for size, deflate-compressed size and modification time. -/
structure FS where
  files : List String
  dirs : List String
  walks : List (String × List (String × List String × List String))
  fsize : String → Nat
  fcompress : String → Nat
  fmtime : String → DT6

/-- os.path.isfile. -/
def FS.isFile (fs : FS) (p : String) : Bool := fs.files.contains p

/-- os.path.isdir. -/
def FS.isDir (fs : FS) (p : String) : Bool := fs.dirs.contains p

/-- os.path.exists. -/
def FS.pexists (fs : FS) (p : String) : Bool := fs.isFile p || fs.isDir p

/-- os.walk over a root: the recorded triples, or none for an empty walk. -/
def FS.walk (fs : FS) (p : String) : List (String × List String × List String) :=
  match fs.walks.find? (fun w => w.1 == p) with
  | some w => w.2
  | none => []

/-- Well-formedness of a filesystem value: no path is both a file and a
directory, and the walk triples are coherent with the file and directory
lists (walk filenames joined to their dirpath are regular files, walk
dirnames joined to their dirpath are directories). -/
def FS.wf (fs : FS) : Bool :=
  fs.files.all (fun p => !(fs.dirs.contains p)) &&
  fs.walks.all (fun w => w.2.all (fun t =>
    (t.2.2.all (fun n => fs.isFile (pyJoin t.1 n))) &&
    (t.2.1.all (fun n => fs.isDir (pyJoin t.1 n)))))

/-- The uniform result dictionary: status ("ok" or "error") and message. -/
structure Result where
  status : String
  message : String
deriving DecidableEq, Repr

/-- The record list produces for each entry. -/
structure InfoRec where
  filename : String
  filesize : Nat
  compress_size : Nat
  modified : String
deriving DecidableEq, Repr

/-- The return value of list: the result fields plus the zipinfo array. -/
structure ListOut where
  status : String
  message : String
  zipinfo : List InfoRec
deriving DecidableEq, Repr

/-- The return value of create: the result dictionary, plus the write the
call performed on the target file (`none` when the target was left
untouched, `some a` when the target file now holds archive `a`). -/
structure CreateOut where
  res : Result
  delta : Option Archive
deriving DecidableEq, Repr

/-- Outcome of the write phase of create: entries appended to the open
archive, the value of filecnt, and the first exception if one was raised
(its str), which aborts the remaining writes. -/
structure WOut where
  entries : List Entry
  cnt : Nat
  err : Option String
deriving DecidableEq, Repr

/-- One myzip.write(path, arcRaw): zipfile normalises the arcname (possibly
raising IndexError), marks directories with a trailing "/", and stores the
metadata of the written path. -/
def writeOne (fs : FS) (path arcRaw : String) : Except String Entry :=
  match arcNorm arcRaw with
  | Except.error e => Except.error e
  | Except.ok nm =>
    let d := fs.isDir path
    Except.ok {
      filename := if d then nm ++ "/" else nm
      isDir := d
      fileSize := if d then 0 else fs.fsize path
      compressSize := if d then 0 else fs.fcompress path
      dateTime := fs.fmtime path
      crcOk := true }

/-- Sequence two write phases: an exception in the first aborts the second,
entries and counts accumulate otherwise. -/
def wcomp (a b : WOut) : WOut :=
  match a.err with
  | some _ => a
  | none => ⟨a.entries ++ b.entries, a.cnt + b.cnt, b.err⟩

/-- Write each path of the list under its root-stripped arcname
(str.replace of the root by the empty string); `counted` tells whether
these writes increment filecnt (file writes do, directory-entry writes in
the walk do not). -/
def writePaths (fs : FS) (root : String) (counted : Bool) : List String → WOut
  | [] => ⟨[], 0, none⟩
  | p :: ps =>
    match writeOne fs p (pyRemove p root) with
    | Except.error e => ⟨[], 0, some e⟩
    | Except.ok ent =>
      let rest := writePaths fs root counted ps
      ⟨ent :: rest.entries, (if counted then 1 else 0) + rest.cnt, rest.err⟩

/-- The os.walk loop of create: per triple, first the files (counted), then
the subdirectories (written but not counted). -/
def writeWalk (fs : FS) (root : String) : List (String × List String × List String) → WOut
  | [] => ⟨[], 0, none⟩
  | t :: ts =>
    wcomp (writePaths fs root true (t.2.2.map (fun n => pyJoin t.1 n)))
      (wcomp (writePaths fs root false (t.2.1.map (fun n => pyJoin t.1 n)))
        (writeWalk fs root ts))

/-- The outer write loop of create: each item is stripped, a regular file
is written directly, anything else is walked. -/
def writeItems (fs : FS) (root : String) : List String → WOut
  | [] => ⟨[], 0, none⟩
  | item :: rest =>
    let it := pyStrip item
    wcomp (if fs.isFile it then writePaths fs root true [it]
           else writeWalk fs root (fs.walk it))
      (writeItems fs root rest)

/-- The open mode chosen by create: "x" exactly when overwrite == 0. -/
def createMode (overwrite : Int) : Char :=
  if overwrite == 0 then 'x' else 'w'

/-- The target filesystem node that ZipFile.extract creates for a member
name: the name is split on "/", empty, "." and ".." parts are dropped, the
rest is joined under the destination path and normalised. -/
def extractTarget (path member : String) : String :=
  posixNormpath (pyJoin path
    (joinSlash (((splitChar '/' member.data).map String.mk).filter
      (fun x => !(x == "" || x == "." || x == "..")))))

namespace Zip

/-- Embedding of _formateDateTime: each component of the date_time tuple
rendered by str and joined with "-", " " and ":". -/
def _formateDateTime (dt : DT6) : String :=
  Nat.repr dt.1 ++ "-" ++ Nat.repr dt.2.1 ++ "-" ++ Nat.repr dt.2.2.1 ++ " "
    ++ Nat.repr dt.2.2.2.1 ++ ":" ++ Nat.repr dt.2.2.2.2.1 ++ ":"
    ++ Nat.repr dt.2.2.2.2.2

/-- Embedding of list(filename): the ZipFile constructor raises
FileNotFoundError when the file is missing (caught: strerror plus the
stripped filename) and BadZipFile when it is not a zip (caught by the bare
except: str of the exception); otherwise one record per entry in storage
order, status ok and the stripped filename as message. -/
def list (zf : ZFile) (filename : String) : ListOut :=
  let fn := pyStrip filename
  match zf with
  | ZFile.missing => ⟨"error", enoentStrerror ++ " " ++ fn, []⟩
  | ZFile.invalid => ⟨"error", badZipMsg, []⟩
  | ZFile.zip a =>
    ⟨"ok", fn,
      a.map (fun e => ⟨e.filename, e.fileSize, e.compressSize, _formateDateTime e.dateTime⟩)⟩

/-- Embedding of create(filename, source, root, overwrite): strip the
filename, choose mode "x" or "w" from overwrite, split the sources on ";",
raise FileNotFoundError for the first stripped source that does not exist
(caught: "File not found: " plus the path), open the target (FileExistsError
in mode "x" on an existing target, caught: its str), then run the write
loop; an exception during the writes leaves the already-written entries in
the target and is reported by the bare except, otherwise the message counts
the file writes. -/
def create (fs : FS) (targetExists : Bool) (filename source root : String)
    (overwrite : Int := 0) : CreateOut :=
  let fn := pyStrip filename
  let items := splitSemi source
  match items.find? (fun it => !(fs.pexists (pyStrip it))) with
  | some bad => ⟨⟨"error", "File not found: " ++ pyStrip bad⟩, none⟩
  | none =>
    if createMode overwrite == 'x' && targetExists then
      ⟨⟨"error", fileExistsMsg fn⟩, none⟩
    else
      let w := writeItems fs root items
      match w.err with
      | some e => ⟨⟨"error", e⟩, some w.entries⟩
      | none => ⟨⟨"ok", Nat.repr w.cnt ++ " files written to archive " ++ fn⟩, some w.entries⟩

/-- Embedding of extract(filename, member, path): ZipFile.getinfo finds the
member by exact name or raises KeyError before anything is written; on
success the member is extracted to its sanitised target under path.  The
second component lists the filesystem nodes the call creates. -/
def extract (zf : ZFile) (filename member path : String) : Result × List String :=
  let fn := pyStrip filename
  match zf with
  | ZFile.missing => (⟨"error", enoentStrerror ++ " " ++ fn⟩, [])
  | ZFile.invalid => (⟨"error", badZipMsg⟩, [])
  | ZFile.zip a =>
    if a.any (fun e => e.filename == member) then
      (⟨"ok", "Extracted " ++ member ++ " to " ++ path⟩, [extractTarget path member])
    else
      (⟨"error", keyErrorMsg member⟩, [])

/-- Embedding of extractall(filename, path): every member is extracted to
its sanitised target under path. -/
def extractall (zf : ZFile) (filename path : String) : Result × List String :=
  let fn := pyStrip filename
  match zf with
  | ZFile.missing => (⟨"error", enoentStrerror ++ " " ++ fn⟩, [])
  | ZFile.invalid => (⟨"error", badZipMsg⟩, [])
  | ZFile.zip a =>
    (⟨"ok", "Extracted " ++ fn ++ " to " ++ path⟩, a.map (fun e => extractTarget path e.filename))

/-- Embedding of test(filename): ZipFile.testzip returns the name of the
first member whose checksum or header fails, or None; the module then
branches on the truthiness of that value. -/
def test (zf : ZFile) (filename : String) : Result :=
  let fn := pyStrip filename
  match zf with
  | ZFile.missing => ⟨"error", enoentStrerror ++ " " ++ fn⟩
  | ZFile.invalid => ⟨"error", badZipMsg⟩
  | ZFile.zip a =>
    let badfile := (a.find? (fun e => !e.crcOk)).map Entry.filename
    if pyTruthy badfile then ⟨"error", badfile.getD ""⟩
    else ⟨"ok", "Test passed for " ++ fn⟩

end Zip

/-- Spec-side reading of root stripping for comparison: removal of one
leading occurrence of the root only, the rest of the path untouched. -/
def specLeadStrip (p root : String) : String :=
  if root.data.isPrefixOf p.data then String.mk (p.data.drop root.data.length) else p

/-! ## Supporting lemmas -/

lemma wf_isFile_not_isDir (fs : FS) (p : String) (hwf : fs.wf = true)
    (hf : fs.isFile p = true) : fs.isDir p = false := by
  unfold FS.wf at hwf
  rw [Bool.and_eq_true] at hwf
  have h1 := hwf.1
  rw [List.all_eq_true] at h1
  unfold FS.isFile at hf
  have hp : p ∈ fs.files := List.elem_iff.mp hf
  have := h1 p hp
  unfold FS.isDir
  simpa using this

lemma wf_walk_coherent (fs : FS) (item : String) (hwf : fs.wf = true) :
    ∀ t ∈ fs.walk item,
      (∀ n ∈ t.2.2, fs.isFile (pyJoin t.1 n) = true)
      ∧ (∀ n ∈ t.2.1, fs.isDir (pyJoin t.1 n) = true) := by
  intro t ht
  unfold FS.walk at ht
  cases hfind : fs.walks.find? (fun w => w.1 == item) with
  | none => rw [hfind] at ht; simp at ht
  | some w =>
    rw [hfind] at ht
    have hw : w ∈ fs.walks := List.mem_of_find?_eq_some hfind
    unfold FS.wf at hwf
    rw [Bool.and_eq_true] at hwf
    have h2 := hwf.2
    rw [List.all_eq_true] at h2
    have h3 := h2 w hw
    rw [List.all_eq_true] at h3
    have h4 := h3 t ht
    rw [Bool.and_eq_true] at h4
    constructor
    · intro n hn
      have h5 := h4.1
      rw [List.all_eq_true] at h5
      exact h5 n hn
    · intro n hn
      have h5 := h4.2
      rw [List.all_eq_true] at h5
      exact h5 n hn

lemma arcNorm_ok (arc nm : String) (h : arcNorm arc = Except.ok nm) :
    nm = arcNameFor arc := by
  unfold arcNorm at h
  by_cases ht : (arcNameFor arc == "") = true
  · simp [ht] at h
  · simp [ht] at h
    exact h.symm

lemma writeOne_ok_isDir (fs : FS) (p arc : String) (ent : Entry)
    (hw : writeOne fs p arc = Except.ok ent) : ent.isDir = fs.isDir p := by
  unfold writeOne at hw
  cases harc : arcNorm arc with
  | error e => simp [harc] at hw
  | ok nm =>
    simp only [harc] at hw
    injection hw with h
    rw [← h]

lemma writeOne_ok_filename (fs : FS) (p arc : String) (ent : Entry)
    (hw : writeOne fs p arc = Except.ok ent) :
    ent.filename = if fs.isDir p then arcNameFor arc ++ "/" else arcNameFor arc := by
  unfold writeOne at hw
  cases harc : arcNorm arc with
  | error e => simp [harc] at hw
  | ok nm =>
    simp only [harc] at hw
    injection hw with h
    rw [← h]
    have := arcNorm_ok arc nm harc
    simp [this]

lemma wcomp_cnt (a b : WOut)
    (ha : a.cnt = a.entries.countP (fun e => !e.isDir))
    (hb : b.cnt = b.entries.countP (fun e => !e.isDir)) :
    (wcomp a b).cnt = (wcomp a b).entries.countP (fun e => !e.isDir) := by
  unfold wcomp
  cases herr : a.err with
  | some e => exact ha
  | none => simp [List.countP_append, ha, hb]

lemma writePaths_cnt (fs : FS) (root : String) (counted : Bool) (ps : List String)
    (h : ∀ p ∈ ps, fs.isDir p = (!counted)) :
    (writePaths fs root counted ps).cnt
      = (writePaths fs root counted ps).entries.countP (fun e => !e.isDir) := by
  induction ps with
  | nil => rfl
  | cons p ps ih =>
    have hp : fs.isDir p = (!counted) := h p (List.mem_cons_self p ps)
    have ih' := ih (fun q hq => h q (List.mem_cons_of_mem _ hq))
    unfold writePaths
    cases hw : writeOne fs p (pyRemove p root) with
    | error e => rfl
    | ok ent =>
      have hent : ent.isDir = (!counted) := by
        rw [writeOne_ok_isDir fs p _ ent hw, hp]
      simp only [List.countP_cons, hent]
      cases counted with
      | true => simp [ih']; omega
      | false => simp [ih']

lemma writeWalk_cnt (fs : FS) (root : String)
    (ts : List (String × List String × List String)) (hwf : fs.wf = true)
    (h : ∀ t ∈ ts, (∀ n ∈ t.2.2, fs.isFile (pyJoin t.1 n) = true)
          ∧ (∀ n ∈ t.2.1, fs.isDir (pyJoin t.1 n) = true)) :
    (writeWalk fs root ts).cnt
      = (writeWalk fs root ts).entries.countP (fun e => !e.isDir) := by
  induction ts with
  | nil => rfl
  | cons t ts ih =>
    have ht := h t (List.mem_cons_self t ts)
    have ih' := ih (fun u hu => h u (List.mem_cons_of_mem _ hu))
    unfold writeWalk
    apply wcomp_cnt
    · apply writePaths_cnt
      intro q hq
      rw [List.mem_map] at hq
      obtain ⟨n, hn, rfl⟩ := hq
      have := wf_isFile_not_isDir fs _ hwf (ht.1 n hn)
      simp [this]
    · apply wcomp_cnt
      · apply writePaths_cnt
        intro q hq
        rw [List.mem_map] at hq
        obtain ⟨n, hn, rfl⟩ := hq
        simp [ht.2 n hn]
      · exact ih'

lemma writeItems_cnt (fs : FS) (root : String) (items : List String)
    (hwf : fs.wf = true) :
    (writeItems fs root items).cnt
      = (writeItems fs root items).entries.countP (fun e => !e.isDir) := by
  induction items with
  | nil => rfl
  | cons item rest ih =>
    unfold writeItems
    apply wcomp_cnt
    · cases hf : fs.isFile (pyStrip item) with
      | true =>
        simp only [hf, if_true]
        apply writePaths_cnt
        intro q hq
        rw [List.mem_singleton] at hq
        subst hq
        simp [wf_isFile_not_isDir fs _ hwf hf]
      | false =>
        simp only [hf, Bool.false_eq_true, if_false]
        exact writeWalk_cnt fs root _ hwf (wf_walk_coherent fs _ hwf)
    · exact ih

lemma wcomp_err_none (a b : WOut) (h : (wcomp a b).err = none) :
    a.err = none ∧ b.err = none := by
  unfold wcomp at h
  cases ha : a.err with
  | some e => simp [ha] at h
  | none => simp only [ha] at h; exact ⟨rfl, h⟩

lemma writePaths_singleton (fs : FS) (root : String) (counted : Bool) (p : String) :
    writePaths fs root counted [p] =
      match writeOne fs p (pyRemove p root) with
      | Except.error e => ⟨[], 0, some e⟩
      | Except.ok ent => ⟨[ent], (if counted then 1 else 0), none⟩ := by
  unfold writePaths
  cases writeOne fs p (pyRemove p root) with
  | error e => rfl
  | ok ent => simp [writePaths]

lemma writeItems_files_names (fs : FS) (root : String) (hwf : fs.wf = true) :
    ∀ items : List String, (∀ it ∈ items, fs.isFile (pyStrip it) = true) →
      (writeItems fs root items).err = none →
      (writeItems fs root items).entries.map Entry.filename
        = items.map (fun it => arcNameFor (pyRemove (pyStrip it) root)) := by
  intro items
  induction items with
  | nil => intro _ _; rfl
  | cons item rest ih =>
    intro hall herr
    have hf : fs.isFile (pyStrip item) = true := hall item (List.mem_cons_self item rest)
    unfold writeItems at herr ⊢
    simp only [hf, if_true] at herr ⊢
    rw [writePaths_singleton] at herr ⊢
    cases hw : writeOne fs (pyStrip item) (pyRemove (pyStrip item) root) with
    | error e =>
      simp only [hw] at herr
      simp [wcomp] at herr
    | ok ent =>
      simp only [hw] at herr ⊢
      have h2 : (writeItems fs root rest).err = none := (wcomp_err_none _ _ herr).2
      have hname : ent.filename = arcNameFor (pyRemove (pyStrip item) root) := by
        have hd := wf_isFile_not_isDir fs _ hwf hf
        have hfn := writeOne_ok_filename fs _ _ ent hw
        rw [hd] at hfn
        simpa using hfn
      simp only [wcomp, List.singleton_append, List.map_cons, hname, List.cons.injEq,
        true_and]
      simpa using ih (fun q hq => hall q (List.mem_cons_of_mem _ hq)) h2

lemma create_precheck_some (fs : FS) (te : Bool) (fn src root : String) (ov : Int)
    (bad : String)
    (h : (splitSemi src).find? (fun it => !(fs.pexists (pyStrip it))) = some bad) :
    Zip.create fs te fn src root ov
      = ⟨⟨"error", "File not found: " ++ pyStrip bad⟩, none⟩ := by
  unfold Zip.create
  simp only [h]

lemma create_target_exists (fs : FS) (te : Bool) (fn src root : String) (ov : Int)
    (h : (splitSemi src).find? (fun it => !(fs.pexists (pyStrip it))) = none)
    (hx : (createMode ov == 'x' && te) = true) :
    Zip.create fs te fn src root ov
      = ⟨⟨"error", fileExistsMsg (pyStrip fn)⟩, none⟩ := by
  unfold Zip.create
  simp only [h, hx, if_true]

lemma create_writes (fs : FS) (te : Bool) (fn src root : String) (ov : Int)
    (h : (splitSemi src).find? (fun it => !(fs.pexists (pyStrip it))) = none)
    (hx : (createMode ov == 'x' && te) = false) :
    Zip.create fs te fn src root ov
      = match (writeItems fs root (splitSemi src)).err with
        | some e => ⟨⟨"error", e⟩, some (writeItems fs root (splitSemi src)).entries⟩
        | none => ⟨⟨"ok", Nat.repr (writeItems fs root (splitSemi src)).cnt
              ++ " files written to archive " ++ pyStrip fn⟩,
            some (writeItems fs root (splitSemi src)).entries⟩ := by
  unfold Zip.create
  simp only [h, hx, Bool.false_eq_true, if_false]

lemma create_ok_inv (fs : FS) (te : Bool) (fn src root : String) (ov : Int)
    (hok : (Zip.create fs te fn src root ov).res.status = "ok") :
    (splitSemi src).find? (fun it => !(fs.pexists (pyStrip it))) = none
    ∧ (writeItems fs root (splitSemi src)).err = none
    ∧ Zip.create fs te fn src root ov
        = ⟨⟨"ok", Nat.repr (writeItems fs root (splitSemi src)).cnt
            ++ " files written to archive " ++ pyStrip fn⟩,
           some (writeItems fs root (splitSemi src)).entries⟩ := by
  cases hfind : (splitSemi src).find? (fun it => !(fs.pexists (pyStrip it))) with
  | some bad =>
    rw [create_precheck_some fs te fn src root ov bad hfind] at hok
    simp at hok
  | none =>
    cases hx : (createMode ov == 'x' && te) with
    | true =>
      rw [create_target_exists fs te fn src root ov hfind hx] at hok
      simp at hok
    | false =>
      have hc := create_writes fs te fn src root ov hfind hx
      cases herr : (writeItems fs root (splitSemi src)).err with
      | some e =>
        rw [hc] at hok
        simp [herr] at hok
      | none =>
        refine ⟨rfl, rfl, ?_⟩
        rw [hc]
        simp only [herr]

/-! ## Claim theorems -/

/-- C4: each of the five operations returns a result whose status field is
the string "ok" or the string "error"; the operations are total Lean
functions of their inputs, so no exception escapes to the caller. -/
theorem operations_return_status_ok_or_error :
    (∀ (zf : ZFile) (fn : String),
        (Zip.list zf fn).status = "ok" ∨ (Zip.list zf fn).status = "error")
    ∧ (∀ (fs : FS) (te : Bool) (fn src root : String) (ov : Int),
        (Zip.create fs te fn src root ov).res.status = "ok"
        ∨ (Zip.create fs te fn src root ov).res.status = "error")
    ∧ (∀ (zf : ZFile) (fn member path : String),
        (Zip.extract zf fn member path).1.status = "ok"
        ∨ (Zip.extract zf fn member path).1.status = "error")
    ∧ (∀ (zf : ZFile) (fn path : String),
        (Zip.extractall zf fn path).1.status = "ok"
        ∨ (Zip.extractall zf fn path).1.status = "error")
    ∧ (∀ (zf : ZFile) (fn : String),
        (Zip.test zf fn).status = "ok" ∨ (Zip.test zf fn).status = "error") := by
  refine ⟨?_, ?_, ?_, ?_, ?_⟩
  · intro zf fn
    cases zf <;> simp [Zip.list]
  · intro fs te fn src root ov
    cases hfind : (splitSemi src).find? (fun it => !(fs.pexists (pyStrip it))) with
    | some bad =>
      rw [create_precheck_some fs te fn src root ov bad hfind]
      simp
    | none =>
      cases hx : (createMode ov == 'x' && te) with
      | true =>
        rw [create_target_exists fs te fn src root ov hfind hx]
        simp
      | false =>
        rw [create_writes fs te fn src root ov hfind hx]
        cases herr : (writeItems fs root (splitSemi src)).err <;> simp [herr]
  · intro zf fn member path
    cases zf with
    | missing => simp [Zip.extract]
    | invalid => simp [Zip.extract]
    | zip a =>
      cases h : a.any (fun e => e.filename == member) <;> simp [Zip.extract, h]
  · intro zf fn path
    cases zf <;> simp [Zip.extractall]
  · intro zf fn
    cases zf with
    | missing => simp [Zip.test]
    | invalid => simp [Zip.test]
    | zip a =>
      cases h : pyTruthy ((a.find? (fun e => !e.crcOk)).map Entry.filename) <;>
        simp [Zip.test, h]

/-- C7: when the archive file does not exist, list, extract, extractall and
test each return an error result whose message is the ENOENT strerror text
followed by the stripped archive filename (and no entry records or created
files). -/
theorem missing_archive_strerror_message :
    (∀ fn : String,
        Zip.list ZFile.missing fn = ⟨"error", enoentStrerror ++ " " ++ pyStrip fn, []⟩)
    ∧ (∀ fn member path : String,
        Zip.extract ZFile.missing fn member path
          = (⟨"error", enoentStrerror ++ " " ++ pyStrip fn⟩, []))
    ∧ (∀ fn path : String,
        Zip.extractall ZFile.missing fn path
          = (⟨"error", enoentStrerror ++ " " ++ pyStrip fn⟩, []))
    ∧ (∀ fn : String,
        Zip.test ZFile.missing fn = ⟨"error", enoentStrerror ++ " " ++ pyStrip fn⟩) :=
  ⟨fun _ => rfl, fun _ _ _ => rfl, fun _ _ => rfl, fun _ => rfl⟩

/-- C8: the modification timestamp of every listed entry is formatted as
Y-M-D H:M:S with every component at its natural decimal width (the str of
the number, no zero padding), and list stores exactly that format in the
modified field of each record. -/
theorem list_timestamp_natural_width :
    (∀ y mo d h mi s : Nat,
        Zip._formateDateTime (y, mo, d, h, mi, s)
          = Nat.repr y ++ "-" ++ Nat.repr mo ++ "-" ++ Nat.repr d ++ " "
            ++ Nat.repr h ++ ":" ++ Nat.repr mi ++ ":" ++ Nat.repr s)
    ∧ (∀ (a : Archive) (fn : String),
        (Zip.list (ZFile.zip a) fn).zipinfo.map InfoRec.modified
          = a.map (fun e => Zip._formateDateTime e.dateTime)) := by
  constructor
  · intro y mo d h mi s
    rfl
  · intro a fn
    simp [Zip.list, List.map_map, Function.comp]

/-- C9: extracting a member name that is not present in an existing archive
yields an error result and creates no filesystem node at the destination
(ZipFile.getinfo raises KeyError before anything is written). -/
theorem extract_missing_member_no_file (a : Archive) (fn member path : String)
    (h : member ∉ a.map Entry.filename) :
    (Zip.extract (ZFile.zip a) fn member path).1.status = "error"
    ∧ (Zip.extract (ZFile.zip a) fn member path).2 = [] := by
  have hany : a.any (fun e => e.filename == member) = false := by
    rw [List.any_eq_false]
    intro e he hbeq
    exact h (List.mem_map.mpr ⟨e, he, by simpa using hbeq⟩)
  simp [Zip.extract, hany]

/-- C10: the overwrite parameter of create defaults to 0 and is compared
only against 0: the open mode is exclusive-create exactly when overwrite is
0, every other integer selects truncate-replace, and create cannot tell two
nonzero overwrite values apart. -/
theorem overwrite_flag_zero_selects_exclusive :
    (∀ (fs : FS) (te : Bool) (fn src root : String),
        Zip.create fs te fn src root = Zip.create fs te fn src root 0)
    ∧ (∀ ov : Int,
        (createMode ov = 'x' ↔ ov = 0) ∧ (createMode ov = 'x' ∨ createMode ov = 'w'))
    ∧ (∀ (fs : FS) (te : Bool) (fn src root : String) (ov : Int),
        Zip.create fs te fn src root ov
          = Zip.create fs te fn src root (if ov = 0 then 0 else 1)) := by
  refine ⟨fun _ _ _ _ _ => rfl, ?_, ?_⟩
  · intro ov
    constructor
    · unfold createMode
      by_cases h : ov = 0 <;> simp [h]
    · unfold createMode
      by_cases h : ov = 0 <;> simp [h]
  · intro fs te fn src root ov
    by_cases h : ov = 0
    · simp [h]
    · rw [if_neg h]
      have hcm : createMode ov = createMode 1 := by
        unfold createMode
        simp [h]
      unfold Zip.create
      rw [hcm]

/-- C2: when some source item (after stripping) does not exist, create
fails before touching the target archive: the status is "error", the
message names the first missing path, the named path indeed does not
exist, and the target file is neither created nor modified. -/
theorem create_missing_source_atomic (fs : FS) (te : Bool) (fn src root : String)
    (ov : Int) (bad : String)
    (h : (splitSemi src).find? (fun it => !(fs.pexists (pyStrip it))) = some bad) :
    (Zip.create fs te fn src root ov).res.status = "error"
    ∧ (Zip.create fs te fn src root ov).res.message = "File not found: " ++ pyStrip bad
    ∧ fs.pexists (pyStrip bad) = false
    ∧ (Zip.create fs te fn src root ov).delta = none := by
  have hbad : fs.pexists (pyStrip bad) = false := by
    have := List.find?_some h
    simpa using this
  rw [create_precheck_some fs te fn src root ov bad h]
  exact ⟨rfl, rfl, hbad, rfl⟩

/-- C3: on a target archive that already exists and with sources that all
exist, create with overwrite 0 returns the FileExistsError message and
leaves the target untouched (exclusive-create), while create with any
nonzero overwrite replaces the target with the newly written entries and
reports "ok" whenever the write phase raises no exception. -/
theorem create_overwrite_semantics (fs : FS) (fn src root : String)
    (hsrc : (splitSemi src).find? (fun it => !(fs.pexists (pyStrip it))) = none) :
    ((Zip.create fs true fn src root 0).res.status = "error"
      ∧ (Zip.create fs true fn src root 0).res.message = fileExistsMsg (pyStrip fn)
      ∧ (Zip.create fs true fn src root 0).delta = none)
    ∧ (∀ ov : Int, ov ≠ 0 →
        (Zip.create fs true fn src root ov).delta
            = some (writeItems fs root (splitSemi src)).entries
        ∧ ((writeItems fs root (splitSemi src)).err = none →
            (Zip.create fs true fn src root ov).res.status = "ok")) := by
  constructor
  · have hx : (createMode 0 == 'x' && true) = true := by decide
    rw [create_target_exists fs true fn src root 0 hsrc hx]
    exact ⟨rfl, rfl, rfl⟩
  · intro ov hov
    have hx : (createMode ov == 'x' && true) = false := by
      unfold createMode
      simp [hov]
    have hc := create_writes fs true fn src root ov hsrc hx
    constructor
    · rw [hc]
      cases herr : (writeItems fs root (splitSemi src)).err with
      | some e => simp only [herr]
      | none => simp only [herr]
    · intro herr
      rw [hc]
      simp only [herr]

/-- C5: whenever create succeeds, the archive written to the target is
reported with a message consisting of the number of non-directory entries
(only file writes are counted, not directory-entry writes), the literal
text " files written to archive " and the stripped target filename. -/
theorem create_counts_only_file_writes (fs : FS) (te : Bool) (fn src root : String)
    (ov : Int) (hwf : fs.wf = true)
    (hok : (Zip.create fs te fn src root ov).res.status = "ok") :
    ∃ a : Archive, (Zip.create fs te fn src root ov).delta = some a
      ∧ (Zip.create fs te fn src root ov).res.message
          = Nat.repr (a.countP (fun e => !e.isDir))
            ++ " files written to archive " ++ pyStrip fn := by
  obtain ⟨hfind, herr, hc⟩ := create_ok_inv fs te fn src root ov hok
  refine ⟨(writeItems fs root (splitSemi src)).entries, ?_, ?_⟩
  · rw [hc]
  · rw [hc]
    exact congrArg
      (fun n => Nat.repr n ++ " files written to archive " ++ pyStrip fn)
      (writeItems_cnt fs root (splitSemi src) hwf)

/-- C1 (amended): for an archive successfully produced by create from
regular-file sources each having the root as a leading substring, list
returns exactly one entry per source, and the relative path of the entry
for a source is the zipfile arcname normalisation (POSIX normpath, then
leading separators stripped) of the source path with every occurrence of
the root removed — not only the leading one. -/
theorem create_then_list_root_stripped_names (fs : FS) (te : Bool)
    (fn src root lfn : String) (ov : Int) (a : Archive)
    (hwf : fs.wf = true)
    (hfiles : ∀ it ∈ splitSemi src, fs.isFile (pyStrip it) = true)
    (_hroot : ∀ it ∈ splitSemi src, strStarts root (pyStrip it) = true)
    (hok : (Zip.create fs te fn src root ov).res.status = "ok")
    (hdelta : (Zip.create fs te fn src root ov).delta = some a) :
    (Zip.list (ZFile.zip a) lfn).status = "ok"
    ∧ (Zip.list (ZFile.zip a) lfn).zipinfo.length = (splitSemi src).length
    ∧ (Zip.list (ZFile.zip a) lfn).zipinfo.map InfoRec.filename
        = (splitSemi src).map (fun it => arcNameFor (pyRemove (pyStrip it) root)) := by
  obtain ⟨hfind, herr, hc⟩ := create_ok_inv fs te fn src root ov hok
  rw [hc] at hdelta
  have ha : a = (writeItems fs root (splitSemi src)).entries :=
    (Option.some.inj hdelta).symm
  subst ha
  have hnames := writeItems_files_names fs root hwf (splitSemi src) hfiles herr
  refine ⟨rfl, ?_, ?_⟩
  · show (List.map _ _).length = _
    rw [List.length_map]
    have hlen := congrArg List.length hnames
    rw [List.length_map, List.length_map] at hlen
    exact hlen
  · show (List.map _ _).map InfoRec.filename = _
    rw [List.map_map]
    exact hnames

/-- C6 (amended): test reports the name of the first corrupt member as an
error, provided that name is a nonempty string (an empty name is falsy in
the truthiness check of the module and is reported as a pass), and reports
a pass when no member is corrupt; later corrupt members are never named. -/
theorem test_reports_first_corrupt_nonempty (a : Archive) (fn : String) :
    (∀ e : Entry, a.find? (fun x => !x.crcOk) = some e → e.filename ≠ "" →
        Zip.test (ZFile.zip a) fn = ⟨"error", e.filename⟩)
    ∧ (a.find? (fun x => !x.crcOk) = none →
        Zip.test (ZFile.zip a) fn = ⟨"ok", "Test passed for " ++ pyStrip fn⟩) := by
  constructor
  · intro e hfind hne
    unfold Zip.test
    simp [hfind, pyTruthy, hne]
  · intro hfind
    unfold Zip.test
    simp [hfind, pyTruthy]

/-! ## Concrete filesystems and archives for witnesses and counterexamples -/

/-- A default date_time tuple for fixtures. -/
def dt0 : DT6 := (1980, 1, 1, 0, 0, 0)

/-- Filesystem holding the two regular files of the concrete scenario. -/
def dataFS : FS :=
  ⟨["/data/a.txt", "/data/sub/b.txt"], [], [], fun _ => 3, fun _ => 2, fun _ => dt0⟩

/-- The archive that create produces from dataFS in the concrete scenario. -/
def wArchA : Archive :=
  [⟨"a.txt", false, 3, 2, dt0, true⟩, ⟨"sub/b.txt", false, 3, 2, dt0, true⟩]

/-- An empty filesystem: every source path is missing. -/
def ghostFS : FS := ⟨[], [], [], fun _ => 0, fun _ => 0, fun _ => dt0⟩

/-- Filesystem with a single regular file under /d. -/
def dFS : FS := ⟨["/d/f"], [], [], fun _ => 1, fun _ => 1, fun _ => dt0⟩

/-- Filesystem whose only file contains the root substring twice. -/
def cexFS : FS := ⟨["/data/data/a.txt"], [], [], fun _ => 0, fun _ => 0, fun _ => dt0⟩

/-- Archive with one sound member followed by two corrupt ones. -/
def wArchT : Archive :=
  [⟨"g", false, 0, 0, dt0, true⟩, ⟨"x", false, 0, 0, dt0, false⟩,
   ⟨"y", false, 0, 0, dt0, false⟩]

/-! ## Witnesses and counterexamples -/

/-- C2 witness: with one source "ghost.txt" that does not exist, create
reports the missing path and leaves the target untouched. -/
theorem create_missing_source_atomic_witness :
    (splitSemi "ghost.txt").find? (fun it => !(ghostFS.pexists (pyStrip it)))
        = some "ghost.txt"
    ∧ ((Zip.create ghostFS false "t.zip" "ghost.txt" "" 1).res.status = "error"
      ∧ (Zip.create ghostFS false "t.zip" "ghost.txt" "" 1).res.message
          = "File not found: " ++ pyStrip "ghost.txt"
      ∧ ghostFS.pexists (pyStrip "ghost.txt") = false
      ∧ (Zip.create ghostFS false "t.zip" "ghost.txt" "" 1).delta = none) :=
  ⟨by decide,
   create_missing_source_atomic ghostFS false "t.zip" "ghost.txt" "" 1 "ghost.txt"
     (by decide)⟩

/-- C3 witness: on an existing target, overwrite 0 fails with the
FileExistsError message and changes nothing, overwrite 1 replaces the
target and reports ok. -/
theorem create_overwrite_semantics_witness :
    ((splitSemi "/d/f").find? (fun it => !(dFS.pexists (pyStrip it))) = none)
    ∧ ((Zip.create dFS true "t.zip" "/d/f" "/d" 0).res.status = "error"
      ∧ (Zip.create dFS true "t.zip" "/d/f" "/d" 0).res.message
          = fileExistsMsg (pyStrip "t.zip")
      ∧ (Zip.create dFS true "t.zip" "/d/f" "/d" 0).delta = none)
    ∧ ((Zip.create dFS true "t.zip" "/d/f" "/d" 1).delta
          = some (writeItems dFS "/d" (splitSemi "/d/f")).entries
      ∧ (Zip.create dFS true "t.zip" "/d/f" "/d" 1).res.status = "ok") := by
  have h := create_overwrite_semantics dFS "t.zip" "/d/f" "/d" (by decide)
  exact ⟨by decide, h.1, (h.2 1 (by decide)).1, (h.2 1 (by decide)).2 (by decide)⟩

/-- C5 witness: the concrete scenario of the specification; only the two
file writes are counted and the archive holds "a.txt" and "sub/b.txt". -/
theorem create_counts_only_file_writes_witness :
    dataFS.wf = true
    ∧ (Zip.create dataFS false "/tmp/out.zip" "/data/a.txt;/data/sub/b.txt" "/data" 1).res.status
        = "ok"
    ∧ (∃ a : Archive,
        (Zip.create dataFS false "/tmp/out.zip" "/data/a.txt;/data/sub/b.txt" "/data" 1).delta
            = some a
        ∧ (Zip.create dataFS false "/tmp/out.zip" "/data/a.txt;/data/sub/b.txt" "/data" 1).res.message
            = Nat.repr (a.countP (fun e => !e.isDir))
              ++ " files written to archive " ++ pyStrip "/tmp/out.zip")
    ∧ (Zip.create dataFS false "/tmp/out.zip" "/data/a.txt;/data/sub/b.txt" "/data" 1).res.message
        = "2 files written to archive /tmp/out.zip"
    ∧ (Zip.create dataFS false "/tmp/out.zip" "/data/a.txt;/data/sub/b.txt" "/data" 1).delta.map
        (List.map Entry.filename) = some ["a.txt", "sub/b.txt"] :=
  ⟨by decide, by decide,
   create_counts_only_file_writes dataFS false "/tmp/out.zip"
     "/data/a.txt;/data/sub/b.txt" "/data" 1 (by decide) (by decide),
   by decide, by decide⟩

/-- C1 witness: the archive produced from the two regular files under
/data lists exactly the two root-stripped names. -/
theorem create_then_list_root_stripped_names_witness :
    ((splitSemi "/data/a.txt;/data/sub/b.txt").all
        (fun it => dataFS.isFile (pyStrip it)) = true)
    ∧ ((splitSemi "/data/a.txt;/data/sub/b.txt").all
        (fun it => strStarts "/data" (pyStrip it)) = true)
    ∧ ((Zip.list (ZFile.zip wArchA) "/tmp/out.zip").status = "ok"
      ∧ (Zip.list (ZFile.zip wArchA) "/tmp/out.zip").zipinfo.length
          = (splitSemi "/data/a.txt;/data/sub/b.txt").length
      ∧ (Zip.list (ZFile.zip wArchA) "/tmp/out.zip").zipinfo.map InfoRec.filename
          = (splitSemi "/data/a.txt;/data/sub/b.txt").map
              (fun it => arcNameFor (pyRemove (pyStrip it) "/data")))
    ∧ (Zip.list (ZFile.zip wArchA) "/tmp/out.zip").zipinfo.map InfoRec.filename
        = ["a.txt", "sub/b.txt"] :=
  ⟨by decide, by decide,
   create_then_list_root_stripped_names dataFS false "/tmp/out.zip"
     "/data/a.txt;/data/sub/b.txt" "/data" "/tmp/out.zip" 1 wArchA
     (by decide) (by decide) (by decide) (by decide) (by decide),
   by decide⟩

/-- C1 counterexample: with the regular-file source /data/data/a.txt and
root /data — an exact leading substring — the stored relative path is
"a.txt" (every occurrence of the root is removed and the leading slash is
stripped), not the prefix-stripped "/data/a.txt" the claim predicts. -/
theorem list_relative_path_prefix_only_cex :
    cexFS.isFile "/data/data/a.txt" = true
    ∧ strStarts "/data" "/data/data/a.txt" = true
    ∧ (Zip.create cexFS false "t.zip" "/data/data/a.txt" "/data" 1).res.status = "ok"
    ∧ ((Zip.create cexFS false "t.zip" "/data/data/a.txt" "/data" 1).delta.map
        (List.map Entry.filename)) = some ["a.txt"]
    ∧ specLeadStrip "/data/data/a.txt" "/data" = "/data/a.txt"
    ∧ ("a.txt" : String) ≠ "/data/a.txt" := by
  decide

/-- C6 witness: the first corrupt member "x" is reported, the later corrupt
member "y" is not. -/
theorem test_reports_first_corrupt_nonempty_witness :
    wArchT.find? (fun x => !x.crcOk) = some ⟨"x", false, 0, 0, dt0, false⟩
    ∧ Zip.test (ZFile.zip wArchT) "b.zip" = ⟨"error", "x"⟩ :=
  ⟨by decide,
   (test_reports_first_corrupt_nonempty wArchT "b.zip").1
     ⟨"x", false, 0, 0, dt0, false⟩ (by decide) (by decide)⟩

/-- C6 counterexample: an archive whose first (and only) corrupt member is
named by the empty string is reported as passing, because the module
branches on the truthiness of the testzip result and "" is falsy. -/
theorem test_empty_corrupt_name_cex :
    ([⟨"", false, 0, 0, dt0, false⟩] : Archive).find? (fun x => !x.crcOk)
        = some ⟨"", false, 0, 0, dt0, false⟩
    ∧ Zip.test (ZFile.zip [⟨"", false, 0, 0, dt0, false⟩]) "a.zip"
        = ⟨"ok", "Test passed for a.zip"⟩ := by
  decide

/-- C9 witness: extracting the absent member "nope.txt" errors and writes
nothing. -/
theorem extract_missing_member_no_file_witness :
    ("nope.txt" ∉ ([⟨"a.txt", false, 3, 2, dt0, true⟩] : Archive).map Entry.filename)
    ∧ (Zip.extract (ZFile.zip [⟨"a.txt", false, 3, 2, dt0, true⟩]) "t.zip" "nope.txt"
        "/dest").1.status = "error"
    ∧ (Zip.extract (ZFile.zip [⟨"a.txt", false, 3, 2, dt0, true⟩]) "t.zip" "nope.txt"
        "/dest").2 = [] := by
  have h := extract_missing_member_no_file [⟨"a.txt", false, 3, 2, dt0, true⟩]
    "t.zip" "nope.txt" "/dest" (by decide)
  exact ⟨by decide, h.1, h.2⟩
